import Mathlib

/-!
Verification development for the sqlx-helper-macros repository.

The crate (src/lib.rs) is a procedural-macro code generator: it parses a list
of function-like declarations and, for each one, emits a data-access method
that builds the statement text SELECT * FROM name($1,...,$N), binds every
declared parameter in order, and dispatches on the declared return type to one
of six fetch strategies.  The development below is a shallow embedding of that
generator: the syn AST fragments the source inspects are modelled as explicit
inductive types, the generator functions are translated one-to-one, and the
places where the source aborts macro expansion by panicking are modelled as
Except errors (the specification names these failure classes SyntaxError and
UnsupportedPattern).
-/

namespace SqlxHelper

/-- Failure classes of the generation pass.  The Rust source aborts expansion
by panicking; the specification groups those aborts into a malformed
return-type failure (SyntaxError) and a non-identifier parameter-pattern
failure (UnsupportedPattern). -/
inductive GenError where
  | syntaxError
  | unsupportedPattern
deriving DecidableEq

mutual

/-- Model of syn::Type restricted to the shapes the generator distinguishes:
a path type (possibly multi-segment, each segment optionally carrying generic
arguments) and the non-path forms the catch-all arm of the classifier sees
(tuples, references, arrays). -/
inductive Ty where
  | path : List PathSegment → Ty
  | tuple : List Ty → Ty
  | reference : Ty → Ty
  | array : Ty → Ty

/-- Model of syn::PathSegment: an identifier plus its path arguments. -/
inductive PathSegment where
  | mk : String → PathArguments → PathSegment

/-- Model of syn::PathArguments. -/
inductive PathArguments where
  | none : PathArguments
  | angleBracketed : List GenericArgument → PathArguments
  | parenthesized : PathArguments

/-- Model of syn::GenericArgument: a type argument or a non-type argument
such as a lifetime. -/
inductive GenericArgument where
  | lifetime : String → GenericArgument
  | type : Ty → GenericArgument

end

/-- The identifier of a path segment. -/
def PathSegment.ident : PathSegment → String
  | PathSegment.mk s _ => s

/-- The path arguments of a path segment. -/
def PathSegment.arguments : PathSegment → PathArguments
  | PathSegment.mk _ a => a

/-- Model of syn::Pat restricted to what make_fn distinguishes: an identifier
pattern versus anything else (wildcards, tuple patterns, ...). -/
inductive Pat where
  | ident : String → Pat
  | wild : Pat
  | tuplePat : List Pat → Pat

/-- Whether a pattern is a plain identifier pattern. -/
def Pat.isIdent : Pat → Bool
  | Pat.ident _ => true
  | _ => false

/-- The FIELD_TYPES constant of src/lib.rs: the scalar type names that
classify as single-column (Field) results. -/
def FIELD_TYPES : List String :=
  ["bool", "i8", "i16", "i32", "i64", "f32", "f64", "String"]

/-- Model of syn::ReturnType: either no return type (Default) or an arrow
followed by a type. -/
inductive SynReturnType where
  | Default : SynReturnType
  | Typed : Ty → SynReturnType

/-- Translation of extract_generic_arg (src/lib.rs lines 62-72).  The source
panics unless the segment carries angle-bracketed arguments whose first entry
is a type; the three panic sites are modelled as SyntaxError. -/
def extract_generic_arg (segment : PathSegment) : Except GenError Ty :=
  match segment.arguments with
  | PathArguments.angleBracketed args =>
    match args with
    | GenericArgument.type ty :: _ => Except.ok ty
    | GenericArgument.lifetime _ :: _ => Except.error GenError.syntaxError
    | [] => Except.error GenError.syntaxError
  | _ => Except.error GenError.syntaxError

/-- The ReturnType enum of src/lib.rs (the classified return shape).  The
spec calls these Void, Scalar, Row, Many, Optional and Stream; the source
names are Default, Field, Row, Rows, Optional and Stream. -/
inductive ReturnType where
  | Default : ReturnType
  | Field : Ty → ReturnType
  | Row : Ty → ReturnType
  | Rows : Ty → ReturnType
  | Optional : Ty → ReturnType
  | Stream : Ty → ReturnType

/-- Translation of the impl From for ReturnType (src/lib.rs lines 102-126).
The source inspects the FIRST path segment, matches its identifier against
Option, Stream, Vec and the FIELD_TYPES list, and falls back to Row with the
whole type; non-path types are also Row.  The unwrap on segments.first() and
the panics inside extract_generic_arg are modelled as SyntaxError. -/
def ReturnType.ofSyn : SynReturnType → Except GenError ReturnType
  | SynReturnType.Default => Except.ok ReturnType.Default
  | SynReturnType.Typed (Ty.path (s :: rest)) =>
    if s.ident = "Option" then
      (extract_generic_arg s).map ReturnType.Optional
    else if s.ident = "Stream" then
      (extract_generic_arg s).map ReturnType.Stream
    else if s.ident = "Vec" then
      (extract_generic_arg s).map ReturnType.Rows
    else if FIELD_TYPES.contains s.ident then
      Except.ok (ReturnType.Field (Ty.path (s :: rest)))
    else
      Except.ok (ReturnType.Row (Ty.path (s :: rest)))
  | SynReturnType.Typed (Ty.path []) => Except.error GenError.syntaxError
  | SynReturnType.Typed ty => Except.ok (ReturnType.Row ty)

/-- A path segment with no arguments. -/
def plainSeg (name : String) : PathSegment :=
  PathSegment.mk name PathArguments.none

/-- A path segment with a single type argument. -/
def genericSeg (name : String) (arg : Ty) : PathSegment :=
  PathSegment.mk name (PathArguments.angleBracketed [GenericArgument.type arg])

/-- Rendering of the quoted type ::sqlx::Result<T>. -/
def sqlxResult (ty : Ty) : Ty :=
  Ty.path [plainSeg "sqlx", genericSeg "Result" ty]

/-- Rendering of the quoted type ::std::option::Option<T>. -/
def stdOption (ty : Ty) : Ty :=
  Ty.path [plainSeg "std", plainSeg "option", genericSeg "Option" ty]

/-- Rendering of the quoted type ::std::vec::Vec<T>. -/
def stdVec (ty : Ty) : Ty :=
  Ty.path [plainSeg "std", plainSeg "vec", genericSeg "Vec" ty]

/-- Rendering of the quoted type ::futures::stream::BoxStream<T>. -/
def futuresBoxStream (ty : Ty) : Ty :=
  Ty.path [plainSeg "futures", plainSeg "stream", genericSeg "BoxStream" ty]

/-- Translation of ReturnType::as_type (src/lib.rs lines 84-100): the declared
result type of the generated method. -/
def ReturnType.as_type : ReturnType → Ty
  | ReturnType.Default => sqlxResult (Ty.tuple [])
  | ReturnType.Field ty => sqlxResult ty
  | ReturnType.Optional ty => sqlxResult (stdOption ty)
  | ReturnType.Stream ty => futuresBoxStream (sqlxResult ty)
  | ReturnType.Rows ty => sqlxResult (stdVec ty)
  | ReturnType.Row ty => sqlxResult ty

/-- Translation of query_for_fn (src/lib.rs lines 128-142).  The loop
for i in 1..=args is the fold over List.range' 1 args; push_str and push are
modelled as string append. -/
def query_for_fn (name : String) (args : Nat) : String :=
  let query := "SELECT * FROM " ++ name ++ "("
  let query := (List.range' 1 args).foldl
    (fun q i =>
      let q := q ++ "$" ++ toString i
      if i < args then q ++ "," else q)
    query
  query ++ ")"

/-- Specification-side helper: a comma-separated rendering of a list of
strings, with no trailing comma and empty output for the empty list. -/
def commaSeparated : List String → String
  | [] => ""
  | [s] => s
  | s :: s2 :: rest => s ++ "," ++ commaSeparated (s2 :: rest)

/-- Specification-side helper: the placeholder texts for arity n, in order:
the placeholder at position i (1-based) is the dollar sign followed by i. -/
def placeholderList (n : Nat) : List String :=
  (List.range' 1 n).map (fun i => "$" ++ toString i)

/-- The sqlx calls a generated body can end with.  fetch_one, fetch_all,
fetch_optional and fetch are the ones make_fn emits; execute (run a statement
and report only the affected row count) is part of the underlying library's
interface and is listed so that statements about which call the generator
selects can be expressed, but make_fn never emits it. -/
inductive MethodCall where
  | fetch_one : MethodCall
  | fetch_all : MethodCall
  | fetch_optional : MethodCall
  | fetch : MethodCall
  | execute : MethodCall
deriving DecidableEq

/-- The expression a generated body ends with. -/
inductive TailExpr where
  /-- Ok(()), the void success value. -/
  | okUnit : TailExpr
  /-- Ok(row.0), projecting the single field of the fetched tuple row. -/
  | okRowField : TailExpr
  /-- query.CALL(executor).await, an awaited terminal database call. -/
  | callAwait : MethodCall → String → TailExpr
  /-- query.CALL(executor) with no await: the lazy result is returned as is. -/
  | call : MethodCall → String → TailExpr

/-- One statement of a generated method body, mirroring exactly the quoted
statements make_fn pushes. -/
inductive GenStmt where
  /-- let mut query = ::sqlx::KIND(QUERY_STRING); where KIND is the name
  query (raw) or query_as (typed). -/
  | letQuery : String → String → GenStmt
  /-- let mut query = query.bind(VAR); -/
  | letBind : String → GenStmt
  /-- query.CALL(executor).await?; as a statement whose awaited value is
  discarded. -/
  | semiAwait : MethodCall → String → GenStmt
  /-- let row: (TY,) = query.fetch_one(executor).await?; the awaited
  one-record fetch into a single-field tuple. -/
  | letRow : Ty → String → GenStmt
  /-- The trailing expression of the body. -/
  | tail : TailExpr → GenStmt

/-- The SqlFn record parsed from one declaration (src/lib.rs lines 16-21).
Generics are forwarded verbatim and never inspected, so they are kept as an
opaque string. -/
structure SqlFn where
  name : String
  generics : String
  args : List (Pat × Ty)
  output : SynReturnType

/-- The parts of the generated syn::ImplItemFn that the generator decides:
name, forwarded generics, receiver mode, asyncness, forwarded parameters,
declared result type and body statements. -/
structure ImplItemFn where
  name : String
  generics : String
  receiverIsMut : Bool
  asyncness : Bool
  args : List (Pat × Ty)
  result : Ty
  stmts : List GenStmt

/-- The bind loop of make_fn (src/lib.rs lines 182-192): one bind statement
per argument, in order; a non-identifier pattern aborts with
UnsupportedPattern (the panic at line 185). -/
def bind_stmts : List (Pat × Ty) → Except GenError (List GenStmt)
  | [] => Except.ok []
  | arg :: rest =>
    match arg.1 with
    | Pat.ident n => (bind_stmts rest).map (fun l => GenStmt.letBind n :: l)
    | _ => Except.error GenError.unsupportedPattern

/-- The statement-constructor choice of make_fn (src/lib.rs lines 167-174):
the raw constructor query for Default, the typed constructor query_as for
every other shape. -/
def queryCtor : ReturnType → String
  | ReturnType.Default => "query"
  | _ => "query_as"

/-- The asyncness of the generated method (src/lib.rs lines 156-162): the
method is generated async and the async marker is removed exactly for
Stream. -/
def isAsync : ReturnType → Bool
  | ReturnType.Stream _ => false
  | _ => true

/-- The terminal statements of the generated body (src/lib.rs lines 194-221):
the per-shape dispatch pushed after the bind statements. -/
def terminalStmts (rt : ReturnType) (executor : String) : List GenStmt :=
  match rt with
  | ReturnType.Default =>
    [GenStmt.semiAwait MethodCall.fetch_one executor,
     GenStmt.tail TailExpr.okUnit]
  | ReturnType.Field ty =>
    [GenStmt.letRow ty executor, GenStmt.tail TailExpr.okRowField]
  | ReturnType.Row _ =>
    [GenStmt.tail (TailExpr.callAwait MethodCall.fetch_one executor)]
  | ReturnType.Rows _ =>
    [GenStmt.tail (TailExpr.callAwait MethodCall.fetch_all executor)]
  | ReturnType.Optional _ =>
    [GenStmt.tail (TailExpr.callAwait MethodCall.fetch_optional executor)]
  | ReturnType.Stream _ =>
    [GenStmt.tail (TailExpr.call MethodCall.fetch executor)]

/-- Translation of make_fn (src/lib.rs lines 144-224).  The classification
runs first (line 148), then the bind loop (lines 182-192); either can abort.
On success the generated method carries the requested receiver mode, the
shape-derived asyncness and result type, the forwarded parameters, and the
body: statement construction, one bind per parameter in order, then the
terminal dispatch. -/
def make_fn (sql_fn : SqlFn) (is_mut : Bool) (executor : String) :
    Except GenError ImplItemFn :=
  match ReturnType.ofSyn sql_fn.output with
  | Except.error e => Except.error e
  | Except.ok return_type =>
    match bind_stmts sql_fn.args with
    | Except.error e => Except.error e
    | Except.ok binds =>
      Except.ok
        { name := sql_fn.name
          generics := sql_fn.generics
          receiverIsMut := is_mut
          asyncness := isAsync return_type
          args := sql_fn.args
          result := return_type.as_type
          stmts := GenStmt.letQuery (queryCtor return_type)
              (query_for_fn sql_fn.name sql_fn.args.length)
            :: binds ++ terminalStmts return_type executor }

/-- The parsed declaration list (the Database struct of src/lib.rs). -/
structure Database where
  functions : List SqlFn

/-- The generation loop shared by the database and transaction entry points
(src/lib.rs lines 250-253 and 296-299): one generated method per declaration,
in order; the first abort ends the whole pass with no partial output. -/
def gen_fns : List SqlFn → Bool → String → Except GenError (List ImplItemFn)
  | [], _, _ => Except.ok []
  | f :: rest, is_mut, executor =>
    match make_fn f is_mut executor with
    | Except.error e => Except.error e
    | Except.ok g =>
      match gen_fns rest is_mut executor with
      | Except.error e => Except.error e
      | Except.ok gs => Except.ok (g :: gs)

/-- The database entry point (src/lib.rs lines 226-261) restricted to the
methods it generates: shared-borrow receiver, executor expression
&self.pool.  The surrounding struct and lifecycle methods are scaffolding
outside the core. -/
def database (db : Database) : Except GenError (List ImplItemFn) :=
  gen_fns db.functions false "&self.pool"

/-- The transaction entry point (src/lib.rs lines 263-308) restricted to the
methods it generates: exclusive-borrow receiver, executor expression
&mut *self.inner. -/
def transaction (tx : Database) : Except GenError (List ImplItemFn) :=
  gen_fns tx.functions true "&mut *self.inner"

/-- Arguments whose patterns are all plain identifiers, built from a list of
name-type pairs. -/
def identArgs (params : List (String × Ty)) : List (Pat × Ty) :=
  params.map (fun p => (Pat.ident p.1, p.2))

/-- Whether path arguments carry an angle-bracketed list whose first entry is
a type: exactly the shape extract_generic_arg accepts. -/
def hasTypeArg : PathArguments → Bool
  | PathArguments.angleBracketed (GenericArgument.type _ :: _) => true
  | _ => false

/-- Proof-side view of the text the query loop appends: for each index, the
placeholder text followed by a comma when the index is below the bound. -/
def phChunk (bound : Nat) : List Nat → String
  | [] => ""
  | i :: rest =>
    ("$" ++ toString i ++ (if i < bound then "," else "")) ++ phChunk bound rest

/-- The fold inside query_for_fn appends exactly the per-index chunks. -/
theorem foldl_query_eq_phChunk (bound : Nat) :
    ∀ (l : List Nat) (q : String),
      l.foldl (fun q i =>
        let q := q ++ "$" ++ toString i
        if i < bound then q ++ "," else q) q
      = q ++ phChunk bound l := by
  intro l
  induction l with
  | nil => intro q; simp [phChunk]
  | cons i rest ih =>
    intro q
    simp only [List.foldl_cons, phChunk]
    rw [ih]
    by_cases h : i < bound <;> simp [h, String.append_assoc]

/-- The chunk text over a list of indices below the bound, closed by the
bound itself (which receives no comma), is exactly the comma-separated
rendering of the placeholder texts. -/
theorem phChunk_append_last (b : Nat) :
    ∀ l : List Nat, (∀ i ∈ l, i < b) →
      phChunk b (l ++ [b])
      = commaSeparated ((l ++ [b]).map (fun i => "$" ++ toString i)) := by
  intro l
  induction l with
  | nil =>
    intro _
    simp [phChunk, commaSeparated]
  | cons i rest ih =>
    intro hlt
    have hi : i < b := hlt i (List.mem_cons_self i rest)
    have hrest : ∀ j ∈ rest, j < b := fun j hj => hlt j (List.mem_cons_of_mem i hj)
    simp only [List.cons_append, List.map_cons]
    rw [show phChunk b (i :: (rest ++ [b]))
        = ("$" ++ toString i ++ (if i < b then "," else ""))
          ++ phChunk b (rest ++ [b]) from rfl]
    rw [if_pos hi, ih hrest]
    cases rest with
    | nil => simp [phChunk, commaSeparated, String.append_assoc]
    | cons j rest2 =>
      simp only [List.cons_append, List.map_cons]
      simp [commaSeparated, String.append_assoc]

/-- The chunk text over the index range one to n, bounded by n, is the
comma-separated placeholder list of arity n. -/
theorem phChunk_range_one (n : Nat) :
    phChunk n (List.range' 1 n) = commaSeparated (placeholderList n) := by
  cases n with
  | zero => simp [phChunk, placeholderList, commaSeparated]
  | succ len =>
    have h1 : List.range' 1 (len + 1) = List.range' 1 len ++ [len + 1] := by
      have := List.range'_1_concat 1 len
      rw [Nat.add_comm 1 len] at this
      exact this
    have h2 : ∀ i ∈ List.range' 1 len, i < len + 1 := by
      intro i hi
      rcases List.mem_range'.mp hi with ⟨k, hk, rfl⟩
      omega
    rw [placeholderList, h1, phChunk_append_last (len + 1) (List.range' 1 len) h2]

/-- The query text built by query_for_fn, written as the specification states
it: the invocation prefix, the comma-separated numbered placeholders with no
trailing comma, and the closing parenthesis. -/
theorem query_for_fn_eq (name : String) (n : Nat) :
    query_for_fn name n
    = "SELECT * FROM " ++ name ++ "("
      ++ commaSeparated (placeholderList n) ++ ")" := by
  have h := foldl_query_eq_phChunk n (List.range' 1 n)
    ("SELECT * FROM " ++ name ++ "(")
  simp only [query_for_fn]
  rw [h, phChunk_range_one]

/-- The bind loop over identifier-pattern arguments succeeds and produces one
bind statement per parameter, in declaration order. -/
theorem bind_stmts_idents (params : List (String × Ty)) :
    bind_stmts (identArgs params)
    = Except.ok (params.map (fun p => GenStmt.letBind p.1)) := by
  induction params with
  | nil => rfl
  | cons p rest ih =>
    simp only [identArgs, List.map_cons] at ih ⊢
    simp [bind_stmts, ih, Except.map]

/-- Evaluation of make_fn on a declaration whose parameters are all
identifier patterns and whose return type classifies successfully. -/
theorem make_fn_idents (n g : String) (params : List (String × Ty))
    (out : SynReturnType) (shape : ReturnType) (is_mut : Bool) (ex : String)
    (h : ReturnType.ofSyn out = Except.ok shape) :
    make_fn ⟨n, g, identArgs params, out⟩ is_mut ex
    = Except.ok
        { name := n
          generics := g
          receiverIsMut := is_mut
          asyncness := isAsync shape
          args := identArgs params
          result := shape.as_type
          stmts := GenStmt.letQuery (queryCtor shape)
              (query_for_fn n params.length)
            :: params.map (fun p => GenStmt.letBind p.1)
            ++ terminalStmts shape ex } := by
  have hb : bind_stmts (List.map (fun p => (Pat.ident p.1, p.2)) params)
      = Except.ok (params.map (fun p => GenStmt.letBind p.1)) :=
    bind_stmts_idents params
  simp [make_fn, h, identArgs, hb]

/-- Any successfully generated method carries the requested receiver mode. -/
theorem make_fn_receiver (s : SqlFn) (m : Bool) (ex : String) (f : ImplItemFn)
    (h : make_fn s m ex = Except.ok f) : f.receiverIsMut = m := by
  unfold make_fn at h
  cases hc : ReturnType.ofSyn s.output with
  | error e => rw [hc] at h; exact Except.noConfusion h
  | ok rt =>
    rw [hc] at h
    cases hb : bind_stmts s.args with
    | error e => rw [hb] at h; exact Except.noConfusion h
    | ok binds =>
      rw [hb] at h
      cases h
      rfl

/-- Every method in a successful generation pass comes from make_fn applied
to some declaration of the list. -/
theorem gen_fns_mem (l : List SqlFn) (m : Bool) (ex : String) :
    ∀ (fns : List ImplItemFn), gen_fns l m ex = Except.ok fns →
      ∀ f ∈ fns, ∃ s ∈ l, make_fn s m ex = Except.ok f := by
  induction l with
  | nil =>
    intro fns h f hf
    simp only [gen_fns] at h
    cases h
    simp at hf
  | cons x xs ih =>
    intro fns h f hf
    simp only [gen_fns] at h
    cases hx : make_fn x m ex with
    | error e => rw [hx] at h; exact Except.noConfusion h
    | ok g =>
      rw [hx] at h
      cases hr : gen_fns xs m ex with
      | error e => rw [hr] at h; exact Except.noConfusion h
      | ok gs =>
        rw [hr] at h
        cases h
        rcases List.mem_cons.mp hf with rfl | hf2
        · exact ⟨x, List.mem_cons_self x xs, hx⟩
        · obtain ⟨s, hs, hmk⟩ := ih gs hr f hf2
          exact ⟨s, List.mem_cons_of_mem x hs, hmk⟩

/-- If make_fn aborts on any declaration of the list, the whole generation
pass yields no output. -/
theorem gen_fns_not_ok (l : List SqlFn) (m : Bool) (ex : String) (s : SqlFn)
    (hs : s ∈ l) (herr : ∀ g, make_fn s m ex ≠ Except.ok g) :
    ∀ res, gen_fns l m ex ≠ Except.ok res := by
  induction l with
  | nil => simp at hs
  | cons x xs ih =>
    intro res h
    simp only [gen_fns] at h
    cases hx : make_fn x m ex with
    | error e => rw [hx] at h; exact Except.noConfusion h
    | ok g =>
      rw [hx] at h
      rcases List.mem_cons.mp hs with rfl | hs2
      · exact herr g hx
      · cases hr : gen_fns xs m ex with
        | error e => rw [hr] at h; exact Except.noConfusion h
        | ok gs => exact ih hs2 gs hr

/-- Membership in the scalar name list agrees with the boolean contains test
the source performs. -/
theorem contains_field_types (s : String) :
    (FIELD_TYPES.contains s = true) ↔ s ∈ FIELD_TYPES := by
  simp [List.contains]

/-- C5: for every declaration name and every arity N, the built statement
text is exactly SELECT * FROM name followed by the parenthesized placeholder
list: the placeholders are the dollar texts numbered 1 through N in order,
comma-separated with no trailing comma, and the list inside the parentheses
is empty when N is zero. -/
theorem C5_query_text (name : String) (n : Nat) :
    query_for_fn name n
    = "SELECT * FROM " ++ name ++ "("
      ++ commaSeparated (placeholderList n) ++ ")"
    ∧ placeholderList n = (List.range' 1 n).map (fun i => "$" ++ toString i)
    ∧ placeholderList 0 = [] :=
  ⟨query_for_fn_eq name n, rfl, rfl⟩

/-- C2: return-shape classification is a pure function of the outermost named
type of the return-type expression: absence of a return type is Void
(Default); outermost name Option, Stream or Vec classifies as Optional,
Stream or Many (Rows) with inner type the first generic argument; an
outermost name in the fixed scalar list FIELD_TYPES (bool, i8, i16, i32,
i64, f32, f64, String) classifies as Scalar (Field) with inner the whole
type; any other outermost name, and any non-path type, classifies as Row
with inner the whole type. -/
theorem C2_classification :
    (ReturnType.ofSyn SynReturnType.Default = Except.ok ReturnType.Default)
    ∧ (∀ (T : Ty) (extra : List GenericArgument),
        ReturnType.ofSyn (SynReturnType.Typed (Ty.path [PathSegment.mk "Option"
          (PathArguments.angleBracketed (GenericArgument.type T :: extra))]))
        = Except.ok (ReturnType.Optional T))
    ∧ (∀ (T : Ty) (extra : List GenericArgument),
        ReturnType.ofSyn (SynReturnType.Typed (Ty.path [PathSegment.mk "Stream"
          (PathArguments.angleBracketed (GenericArgument.type T :: extra))]))
        = Except.ok (ReturnType.Stream T))
    ∧ (∀ (T : Ty) (extra : List GenericArgument),
        ReturnType.ofSyn (SynReturnType.Typed (Ty.path [PathSegment.mk "Vec"
          (PathArguments.angleBracketed (GenericArgument.type T :: extra))]))
        = Except.ok (ReturnType.Rows T))
    ∧ (∀ (nm : String) (pa : PathArguments), nm ∈ FIELD_TYPES →
        ReturnType.ofSyn (SynReturnType.Typed (Ty.path [PathSegment.mk nm pa]))
        = Except.ok (ReturnType.Field (Ty.path [PathSegment.mk nm pa])))
    ∧ (∀ (nm : String) (pa : PathArguments),
        nm ∉ ["Option", "Stream", "Vec"] → nm ∉ FIELD_TYPES →
        ReturnType.ofSyn (SynReturnType.Typed (Ty.path [PathSegment.mk nm pa]))
        = Except.ok (ReturnType.Row (Ty.path [PathSegment.mk nm pa])))
    ∧ (∀ tys : List Ty,
        ReturnType.ofSyn (SynReturnType.Typed (Ty.tuple tys))
        = Except.ok (ReturnType.Row (Ty.tuple tys)))
    ∧ (∀ t : Ty,
        ReturnType.ofSyn (SynReturnType.Typed (Ty.reference t))
        = Except.ok (ReturnType.Row (Ty.reference t)))
    ∧ (∀ t : Ty,
        ReturnType.ofSyn (SynReturnType.Typed (Ty.array t))
        = Except.ok (ReturnType.Row (Ty.array t))) := by
  refine ⟨rfl, fun T extra => rfl, fun T extra => rfl, fun T extra => rfl,
    ?_, ?_, fun tys => rfl, fun t => rfl, fun t => rfl⟩
  · intro nm pa h
    fin_cases h <;> rfl
  · intro nm pa h1 h2
    have e1 : ¬(nm = "Option") := fun e => h1 (by subst e; decide)
    have e2 : ¬(nm = "Stream") := fun e => h1 (by subst e; decide)
    have e3 : ¬(nm = "Vec") := fun e => h1 (by subst e; decide)
    have e4 : ¬(FIELD_TYPES.contains nm = true) :=
      fun hc => h2 ((contains_field_types nm).mp hc)
    simp only [ReturnType.ofSyn, PathSegment.ident]
    rw [if_neg e1, if_neg e2, if_neg e3, if_neg e4]

/-- Closed instance of the hypothesis-bearing parts of the classification
table: the scalar name i64 classifies as Field with the whole type as inner,
and the unrecognized name User classifies as Row with the whole type. -/
theorem C2_classification_witness :
    (("i64" : String) ∈ FIELD_TYPES
      ∧ ReturnType.ofSyn
          (SynReturnType.Typed (Ty.path [PathSegment.mk "i64" PathArguments.none]))
        = Except.ok (ReturnType.Field (Ty.path [PathSegment.mk "i64" PathArguments.none])))
    ∧ (("User" : String) ∉ ["Option", "Stream", "Vec"]
      ∧ ("User" : String) ∉ FIELD_TYPES
      ∧ ReturnType.ofSyn
          (SynReturnType.Typed (Ty.path [PathSegment.mk "User" PathArguments.none]))
        = Except.ok (ReturnType.Row (Ty.path [PathSegment.mk "User" PathArguments.none]))) :=
  ⟨⟨by decide, C2_classification.2.2.2.2.1 "i64" PathArguments.none (by decide)⟩,
   ⟨by decide, by decide,
     C2_classification.2.2.2.2.2.1 "User" PathArguments.none (by decide) (by decide)⟩⟩

/-- C10: classification compares only the first segment of a path type
against the recognized names.  A multi-segment path whose final segment is a
recognized wrapper, such as std::vec::Vec of T or std::option::Option of T,
has an unrecognized first segment (std) and therefore classifies as Row with
the whole type; in general any path whose first segment is unrecognized is
Row no matter what the later segments are, a recognized first segment decides
the shape no matter what the later segments are, and every non-path type
(tuple, reference, array) classifies as Row rather than being rejected. -/
theorem C10_first_segment :
    (∀ (s : PathSegment) (rest : List PathSegment),
        s.ident ∉ ["Option", "Stream", "Vec"] → s.ident ∉ FIELD_TYPES →
        ReturnType.ofSyn (SynReturnType.Typed (Ty.path (s :: rest)))
        = Except.ok (ReturnType.Row (Ty.path (s :: rest))))
    ∧ (∀ T : Ty, ReturnType.ofSyn (SynReturnType.Typed (stdVec T))
        = Except.ok (ReturnType.Row (stdVec T)))
    ∧ (∀ T : Ty, ReturnType.ofSyn (SynReturnType.Typed (stdOption T))
        = Except.ok (ReturnType.Row (stdOption T)))
    ∧ (∀ (T : Ty) (extra : List GenericArgument) (rest : List PathSegment),
        ReturnType.ofSyn (SynReturnType.Typed (Ty.path (PathSegment.mk "Option"
          (PathArguments.angleBracketed (GenericArgument.type T :: extra)) :: rest)))
        = Except.ok (ReturnType.Optional T))
    ∧ (∀ tys : List Ty,
        ReturnType.ofSyn (SynReturnType.Typed (Ty.tuple tys))
        = Except.ok (ReturnType.Row (Ty.tuple tys)))
    ∧ (∀ t : Ty,
        ReturnType.ofSyn (SynReturnType.Typed (Ty.reference t))
        = Except.ok (ReturnType.Row (Ty.reference t)))
    ∧ (∀ t : Ty,
        ReturnType.ofSyn (SynReturnType.Typed (Ty.array t))
        = Except.ok (ReturnType.Row (Ty.array t))) := by
  refine ⟨?_, fun T => rfl, fun T => rfl, fun T extra rest => rfl,
    fun tys => rfl, fun t => rfl, fun t => rfl⟩
  intro s rest h1 h2
  have e1 : ¬(s.ident = "Option") := fun e => h1 (by rw [e]; decide)
  have e2 : ¬(s.ident = "Stream") := fun e => h1 (by rw [e]; decide)
  have e3 : ¬(s.ident = "Vec") := fun e => h1 (by rw [e]; decide)
  have e4 : ¬(FIELD_TYPES.contains s.ident = true) :=
    fun hc => h2 ((contains_field_types s.ident).mp hc)
  simp only [ReturnType.ofSyn]
  rw [if_neg e1, if_neg e2, if_neg e3, if_neg e4]

/-- Closed instance of the hypothesis-bearing part of the first-segment
claim: a path whose first segment is an unrecognized name classifies as Row
even when a later segment is the recognized wrapper Vec. -/
theorem C10_first_segment_witness :
    (plainSeg "std").ident ∉ ["Option", "Stream", "Vec"]
    ∧ (plainSeg "std").ident ∉ FIELD_TYPES
    ∧ ReturnType.ofSyn (SynReturnType.Typed
        (Ty.path [plainSeg "std", plainSeg "vec", genericSeg "Vec" (Ty.tuple [])]))
      = Except.ok (ReturnType.Row
        (Ty.path [plainSeg "std", plainSeg "vec", genericSeg "Vec" (Ty.tuple [])])) :=
  ⟨by decide, by decide,
    C10_first_segment.1 (plainSeg "std")
      [plainSeg "vec", genericSeg "Vec" (Ty.tuple [])] (by decide) (by decide)⟩

/-- C1: the generated body binds its parameters in declaration order, one
bind statement per parameter, right after the statement construction; the
built statement text lists the placeholders in the same order, so the
parameter at (0-based) position i corresponds to the placeholder numbered
i + 1; the parameter identifier names play no role in the numbering. -/
theorem C1_bind_order (n g : String) (params : List (String × Ty))
    (out : SynReturnType) (shape : ReturnType) (is_mut : Bool) (ex : String)
    (h : ReturnType.ofSyn out = Except.ok shape) :
    (∃ f, make_fn ⟨n, g, identArgs params, out⟩ is_mut ex = Except.ok f
      ∧ f.stmts = GenStmt.letQuery (queryCtor shape) (query_for_fn n params.length)
          :: params.map (fun p => GenStmt.letBind p.1)
          ++ terminalStmts shape ex)
    ∧ query_for_fn n params.length
      = "SELECT * FROM " ++ n ++ "("
        ++ commaSeparated (placeholderList params.length) ++ ")"
    ∧ (∀ i, i < params.length →
        ∃ p, params[i]? = some p
          ∧ (params.map (fun p => GenStmt.letBind p.1))[i]? = some (GenStmt.letBind p.1)
          ∧ (placeholderList params.length)[i]? = some ("$" ++ toString (i + 1))) := by
  refine ⟨⟨_, make_fn_idents n g params out shape is_mut ex h, rfl⟩,
    query_for_fn_eq n params.length, ?_⟩
  intro i hi
  refine ⟨params.get ⟨i, hi⟩, ?_, ?_, ?_⟩
  · simp [List.getElem?_eq_getElem hi]
  · simp [List.getElem?_map, List.getElem?_eq_getElem hi]
  · rw [placeholderList, List.getElem?_map, List.getElem?_range' 1 1 hi]
    simp [Nat.add_comm 1 i]

/-- Closed instance of the bind-order claim for a two-parameter declaration
returning Vec of a row type: the body binds a then b, in that order, and the
statement text is SELECT * FROM f($1,$2). -/
theorem C1_bind_order_witness :
    (∃ f, make_fn ⟨"f", "",
        identArgs [("a", Ty.path [plainSeg "i64"]), ("b", Ty.path [plainSeg "String"])],
        SynReturnType.Typed (Ty.path [genericSeg "Vec" (Ty.path [plainSeg "Order"])])⟩
        false "&self.pool" = Except.ok f
      ∧ f.stmts = GenStmt.letQuery
          (queryCtor (ReturnType.Rows (Ty.path [plainSeg "Order"])))
          (query_for_fn "f" ([("a", Ty.path [plainSeg "i64"]),
            ("b", Ty.path [plainSeg "String"])].map (fun p => (p.1, p.2))).length)
          :: [("a", Ty.path [plainSeg "i64"]),
              ("b", Ty.path [plainSeg "String"])].map (fun p => GenStmt.letBind p.1)
          ++ terminalStmts (ReturnType.Rows (Ty.path [plainSeg "Order"])) "&self.pool")
    ∧ query_for_fn "f" 2 = "SELECT * FROM f($1,$2)" := by
  have h := C1_bind_order "f" ""
    [("a", Ty.path [plainSeg "i64"]), ("b", Ty.path [plainSeg "String"])]
    (SynReturnType.Typed (Ty.path [genericSeg "Vec" (Ty.path [plainSeg "Order"])]))
    (ReturnType.Rows (Ty.path [plainSeg "Order"])) false "&self.pool" rfl
  obtain ⟨⟨f, hf, hstmts⟩, _, _⟩ := h
  exact ⟨⟨f, hf, by simpa using hstmts⟩, rfl⟩

/-- C3: for each classified shape the generated result type and terminal
call match the dispatch table.  Scalar (Field): the body ends by fetching
exactly one tuple-shaped record and projecting its single field, result type
Result of the scalar; Row: terminal is the awaited one-record fetch returned
as is, result type Result of the row type; Many (Rows): terminal is the
awaited fetch of all records, result type Result of Vec of the inner type;
Optional: terminal is the awaited at-most-one-record fetch, result type
Result of Option of the inner type. -/
theorem C3_result_and_terminal (n g : String) (params : List (String × Ty))
    (out : SynReturnType) (ty : Ty) (is_mut : Bool) (ex : String) :
    (ReturnType.ofSyn out = Except.ok (ReturnType.Field ty) →
      ∃ f, make_fn ⟨n, g, identArgs params, out⟩ is_mut ex = Except.ok f
        ∧ f.result = sqlxResult ty
        ∧ ∃ pre, f.stmts = pre
            ++ [GenStmt.letRow ty ex, GenStmt.tail TailExpr.okRowField])
    ∧ (ReturnType.ofSyn out = Except.ok (ReturnType.Row ty) →
      ∃ f, make_fn ⟨n, g, identArgs params, out⟩ is_mut ex = Except.ok f
        ∧ f.result = sqlxResult ty
        ∧ ∃ pre, f.stmts = pre
            ++ [GenStmt.tail (TailExpr.callAwait MethodCall.fetch_one ex)])
    ∧ (ReturnType.ofSyn out = Except.ok (ReturnType.Rows ty) →
      ∃ f, make_fn ⟨n, g, identArgs params, out⟩ is_mut ex = Except.ok f
        ∧ f.result = sqlxResult (stdVec ty)
        ∧ ∃ pre, f.stmts = pre
            ++ [GenStmt.tail (TailExpr.callAwait MethodCall.fetch_all ex)])
    ∧ (ReturnType.ofSyn out = Except.ok (ReturnType.Optional ty) →
      ∃ f, make_fn ⟨n, g, identArgs params, out⟩ is_mut ex = Except.ok f
        ∧ f.result = sqlxResult (stdOption ty)
        ∧ ∃ pre, f.stmts = pre
            ++ [GenStmt.tail (TailExpr.callAwait MethodCall.fetch_optional ex)]) := by
  refine ⟨fun h => ?_, fun h => ?_, fun h => ?_, fun h => ?_⟩ <;>
    exact ⟨_, make_fn_idents n g params out _ is_mut ex h, rfl,
      ⟨GenStmt.letQuery (queryCtor _) (query_for_fn n params.length)
        :: params.map (fun p => GenStmt.letBind p.1), rfl⟩⟩

/-- Closed instance of the result-and-terminal table: a declaration
returning Option of i64 generates a method whose result type is Result of
Option of i64 and whose body ends with the awaited at-most-one-record
fetch. -/
theorem C3_result_and_terminal_witness :
    ∃ f, make_fn ⟨"get_user", "",
        identArgs [("id", Ty.path [plainSeg "i64"])],
        SynReturnType.Typed (Ty.path [genericSeg "Option" (Ty.path [plainSeg "i64"])])⟩
        false "&self.pool" = Except.ok f
      ∧ f.result = sqlxResult (stdOption (Ty.path [plainSeg "i64"]))
      ∧ ∃ pre, f.stmts = pre
          ++ [GenStmt.tail (TailExpr.callAwait MethodCall.fetch_optional "&self.pool")] :=
  (C3_result_and_terminal "get_user" "" [("id", Ty.path [plainSeg "i64"])]
    (SynReturnType.Typed (Ty.path [genericSeg "Option" (Ty.path [plainSeg "i64"])]))
    (Ty.path [plainSeg "i64"]) false "&self.pool").2.2.2 rfl

/-- C4 (amended): a declaration classified Void (Default) constructs its
statement with the raw constructor query while every other shape uses the
typed constructor query_as; the Void terminal call is the awaited one-record
fetch whose fetched record is discarded, after which the body yields the
void success Ok(()). -/
theorem C4_raw_vs_typed (n g : String) (params : List (String × Ty))
    (out : SynReturnType) (is_mut : Bool) (ex : String) :
    (ReturnType.ofSyn out = Except.ok ReturnType.Default →
      ∃ f, make_fn ⟨n, g, identArgs params, out⟩ is_mut ex = Except.ok f
        ∧ f.stmts = GenStmt.letQuery "query" (query_for_fn n params.length)
            :: params.map (fun p => GenStmt.letBind p.1)
            ++ [GenStmt.semiAwait MethodCall.fetch_one ex,
                GenStmt.tail TailExpr.okUnit])
    ∧ (∀ shape, ReturnType.ofSyn out = Except.ok shape →
        shape ≠ ReturnType.Default →
        ∃ f, make_fn ⟨n, g, identArgs params, out⟩ is_mut ex = Except.ok f
          ∧ f.stmts.head?
            = some (GenStmt.letQuery "query_as" (query_for_fn n params.length))) := by
  constructor
  · intro h
    exact ⟨_, make_fn_idents n g params out ReturnType.Default is_mut ex h, rfl⟩
  · intro shape h hne
    refine ⟨_, make_fn_idents n g params out shape is_mut ex h, ?_⟩
    have hq : queryCtor shape = "query_as" := by
      cases shape <;> first | exact absurd rfl hne | rfl
    simp [hq]

/-- Closed instance of the raw-versus-typed claim: the Void declaration uses
the raw constructor, and a Vec-returning declaration uses the typed one. -/
theorem C4_raw_vs_typed_witness :
    (∃ f, make_fn ⟨"del", "", identArgs [], SynReturnType.Default⟩ false "&self.pool"
        = Except.ok f
      ∧ f.stmts = GenStmt.letQuery "query" (query_for_fn "del" ([] : List (String × Ty)).length)
          :: ([] : List (String × Ty)).map (fun p => GenStmt.letBind p.1)
          ++ [GenStmt.semiAwait MethodCall.fetch_one "&self.pool",
              GenStmt.tail TailExpr.okUnit])
    ∧ (∃ f, make_fn ⟨"all", "", identArgs [],
          SynReturnType.Typed (Ty.path [genericSeg "Vec" (Ty.path [plainSeg "Row2"])])⟩
          false "&self.pool" = Except.ok f
        ∧ f.stmts.head?
          = some (GenStmt.letQuery "query_as" (query_for_fn "all" ([] : List (String × Ty)).length))) :=
  ⟨(C4_raw_vs_typed "del" "" [] SynReturnType.Default false "&self.pool").1 rfl,
   (C4_raw_vs_typed "all" "" []
      (SynReturnType.Typed (Ty.path [genericSeg "Vec" (Ty.path [plainSeg "Row2"])]))
      false "&self.pool").2 (ReturnType.Rows (Ty.path [plainSeg "Row2"])) rfl
      (fun hcon => ReturnType.noConfusion hcon)⟩

/-- C4 counterexample: for the zero-parameter Void declaration delete_all,
the generated terminal database call is the one-record fetch fetch_one whose
fetched record is discarded; it is not the execute call that runs the
statement and reports only an affected-row count, contrary to the claim's
execute-without-result wording. -/
theorem C4_counterexample :
    ((make_fn ⟨"delete_all", "", [], SynReturnType.Default⟩ false "&self.pool").map
        ImplItemFn.stmts
      = Except.ok [GenStmt.letQuery "query" "SELECT * FROM delete_all()",
          GenStmt.semiAwait MethodCall.fetch_one "&self.pool",
          GenStmt.tail TailExpr.okUnit])
    ∧ ¬ ((make_fn ⟨"delete_all", "", [], SynReturnType.Default⟩ false "&self.pool").map
        ImplItemFn.stmts
      = Except.ok [GenStmt.letQuery "query" "SELECT * FROM delete_all()",
          GenStmt.semiAwait MethodCall.execute "&self.pool",
          GenStmt.tail TailExpr.okUnit]) := by
  refine ⟨rfl, fun h => ?_⟩
  rw [show (make_fn ⟨"delete_all", "", [], SynReturnType.Default⟩ false "&self.pool").map
      ImplItemFn.stmts
    = Except.ok [GenStmt.letQuery "query" "SELECT * FROM delete_all()",
        GenStmt.semiAwait MethodCall.fetch_one "&self.pool",
        GenStmt.tail TailExpr.okUnit] from rfl] at h
  simp at h

/-- C6: a Stream-classified declaration generates a method that is not
marked asynchronous and whose trailing expression returns the lazy fetch
result without awaiting it; every other shape generates an asynchronous
method whose terminal database call is awaited (the semiAwait, letRow and
callAwait statement forms all carry the await in the source template, the
plain call form does not). -/
theorem C6_stream_async (n g : String) (params : List (String × Ty))
    (out : SynReturnType) (ty : Ty) (is_mut : Bool) (ex : String) :
    (ReturnType.ofSyn out = Except.ok (ReturnType.Stream ty) →
      ∃ f, make_fn ⟨n, g, identArgs params, out⟩ is_mut ex = Except.ok f
        ∧ f.asyncness = false
        ∧ f.stmts.getLast? = some (GenStmt.tail (TailExpr.call MethodCall.fetch ex)))
    ∧ (ReturnType.ofSyn out = Except.ok ReturnType.Default →
      ∃ f, make_fn ⟨n, g, identArgs params, out⟩ is_mut ex = Except.ok f
        ∧ f.asyncness = true
        ∧ GenStmt.semiAwait MethodCall.fetch_one ex ∈ f.stmts)
    ∧ (ReturnType.ofSyn out = Except.ok (ReturnType.Field ty) →
      ∃ f, make_fn ⟨n, g, identArgs params, out⟩ is_mut ex = Except.ok f
        ∧ f.asyncness = true
        ∧ GenStmt.letRow ty ex ∈ f.stmts)
    ∧ (ReturnType.ofSyn out = Except.ok (ReturnType.Row ty) →
      ∃ f, make_fn ⟨n, g, identArgs params, out⟩ is_mut ex = Except.ok f
        ∧ f.asyncness = true
        ∧ f.stmts.getLast?
          = some (GenStmt.tail (TailExpr.callAwait MethodCall.fetch_one ex)))
    ∧ (ReturnType.ofSyn out = Except.ok (ReturnType.Rows ty) →
      ∃ f, make_fn ⟨n, g, identArgs params, out⟩ is_mut ex = Except.ok f
        ∧ f.asyncness = true
        ∧ f.stmts.getLast?
          = some (GenStmt.tail (TailExpr.callAwait MethodCall.fetch_all ex)))
    ∧ (ReturnType.ofSyn out = Except.ok (ReturnType.Optional ty) →
      ∃ f, make_fn ⟨n, g, identArgs params, out⟩ is_mut ex = Except.ok f
        ∧ f.asyncness = true
        ∧ f.stmts.getLast?
          = some (GenStmt.tail (TailExpr.callAwait MethodCall.fetch_optional ex))) := by
  refine ⟨fun h => ⟨_, make_fn_idents n g params out _ is_mut ex h, rfl,
      List.getLast?_concat _⟩,
    fun h => ⟨_, make_fn_idents n g params out _ is_mut ex h, rfl,
      by simp [terminalStmts]⟩,
    fun h => ⟨_, make_fn_idents n g params out _ is_mut ex h, rfl,
      by simp [terminalStmts]⟩,
    fun h => ⟨_, make_fn_idents n g params out _ is_mut ex h, rfl,
      List.getLast?_concat _⟩,
    fun h => ⟨_, make_fn_idents n g params out _ is_mut ex h, rfl,
      List.getLast?_concat _⟩,
    fun h => ⟨_, make_fn_idents n g params out _ is_mut ex h, rfl,
      List.getLast?_concat _⟩⟩

/-- Closed instance of the asyncness claim: the declaration tail_events
returning Stream of Event generates a non-asynchronous method ending in the
unawaited lazy fetch, while an Option-returning declaration generates an
asynchronous method ending in the awaited at-most-one-record fetch. -/
theorem C6_stream_async_witness :
    (∃ f, make_fn ⟨"tail_events", "", identArgs [],
        SynReturnType.Typed (Ty.path [genericSeg "Stream" (Ty.path [plainSeg "Event"])])⟩
        false "&self.pool" = Except.ok f
      ∧ f.asyncness = false
      ∧ f.stmts.getLast?
        = some (GenStmt.tail (TailExpr.call MethodCall.fetch "&self.pool")))
    ∧ (∃ f, make_fn ⟨"find", "", identArgs [],
        SynReturnType.Typed (Ty.path [genericSeg "Option" (Ty.path [plainSeg "Event"])])⟩
        false "&self.pool" = Except.ok f
      ∧ f.asyncness = true
      ∧ f.stmts.getLast?
        = some (GenStmt.tail (TailExpr.callAwait MethodCall.fetch_optional "&self.pool"))) :=
  ⟨(C6_stream_async "tail_events" "" []
      (SynReturnType.Typed (Ty.path [genericSeg "Stream" (Ty.path [plainSeg "Event"])]))
      (Ty.path [plainSeg "Event"]) false "&self.pool").1 rfl,
   (C6_stream_async "find" "" []
      (SynReturnType.Typed (Ty.path [genericSeg "Option" (Ty.path [plainSeg "Event"])]))
      (Ty.path [plainSeg "Event"]) false "&self.pool").2.2.2.2.2 rfl⟩

/-- C7: every method the database entry point generates takes its receiver
by shared borrow, and every method the transaction entry point generates
takes its receiver by exclusive borrow. -/
theorem C7_receiver_mode (db : Database) (fns : List ImplItemFn) :
    (database db = Except.ok fns → ∀ f ∈ fns, f.receiverIsMut = false)
    ∧ (transaction db = Except.ok fns → ∀ f ∈ fns, f.receiverIsMut = true) := by
  constructor
  · intro h f hf
    obtain ⟨s, _, hs⟩ := gen_fns_mem db.functions false "&self.pool" fns h f hf
    exact make_fn_receiver s false "&self.pool" f hs
  · intro h f hf
    obtain ⟨s, _, hs⟩ := gen_fns_mem db.functions true "&mut *self.inner" fns h f hf
    exact make_fn_receiver s true "&mut *self.inner" f hs

/-- Closed instance of the receiver-mode claim on a one-declaration list:
the database pass yields a shared-borrow method and the transaction pass an
exclusive-borrow method. -/
theorem C7_receiver_mode_witness :
    (∀ f ∈ [(⟨"del", "", false, true, [], sqlxResult (Ty.tuple []),
        [GenStmt.letQuery "query" "SELECT * FROM del()",
         GenStmt.semiAwait MethodCall.fetch_one "&self.pool",
         GenStmt.tail TailExpr.okUnit]⟩ : ImplItemFn)],
      f.receiverIsMut = false)
    ∧ (∀ f ∈ [(⟨"del", "", true, true, [], sqlxResult (Ty.tuple []),
        [GenStmt.letQuery "query" "SELECT * FROM del()",
         GenStmt.semiAwait MethodCall.fetch_one "&mut *self.inner",
         GenStmt.tail TailExpr.okUnit]⟩ : ImplItemFn)],
      f.receiverIsMut = true) :=
  ⟨(C7_receiver_mode ⟨[⟨"del", "", [], SynReturnType.Default⟩]⟩ _).1 rfl,
   (C7_receiver_mode ⟨[⟨"del", "", [], SynReturnType.Default⟩]⟩ _).2 rfl⟩

/-- extract_generic_arg aborts exactly when the arguments are not an
angle-bracketed list whose first entry is a type. -/
theorem extract_generic_arg_bad (nm : String) (pa : PathArguments)
    (h : hasTypeArg pa = false) :
    extract_generic_arg (PathSegment.mk nm pa) = Except.error GenError.syntaxError := by
  cases pa with
  | none => rfl
  | parenthesized => rfl
  | angleBracketed args =>
    cases args with
    | nil => rfl
    | cons a rest =>
      cases a with
      | lifetime s => rfl
      | type t => simp [hasTypeArg] at h

/-- C8: a declaration whose return type is one of the recognized generic
wrappers but whose angle-bracket argument list is missing or malformed makes
classification abort with SyntaxError; make_fn on that declaration aborts
with SyntaxError regardless of its parameters; and any generation pass whose
declaration list contains such a declaration produces no output at all. -/
theorem C8_malformed_wrapper (wname : String) (pa : PathArguments)
    (hw : wname ∈ ["Option", "Stream", "Vec"]) (hbad : hasTypeArg pa = false) :
    (ReturnType.ofSyn (SynReturnType.Typed (Ty.path [PathSegment.mk wname pa]))
      = Except.error GenError.syntaxError)
    ∧ (∀ (n g : String) (args : List (Pat × Ty)) (is_mut : Bool) (ex : String),
        make_fn ⟨n, g, args, SynReturnType.Typed (Ty.path [PathSegment.mk wname pa])⟩
          is_mut ex = Except.error GenError.syntaxError)
    ∧ (∀ (l : List SqlFn) (is_mut : Bool) (ex : String) (sq : SqlFn),
        sq ∈ l →
        sq.output = SynReturnType.Typed (Ty.path [PathSegment.mk wname pa]) →
        ∀ res, gen_fns l is_mut ex ≠ Except.ok res) := by
  have he := extract_generic_arg_bad wname pa hbad
  have h1 : ReturnType.ofSyn (SynReturnType.Typed (Ty.path [PathSegment.mk wname pa]))
      = Except.error GenError.syntaxError := by
    fin_cases hw <;> simp [ReturnType.ofSyn, PathSegment.ident, he, Except.map]
  refine ⟨h1, fun n g args is_mut ex => by simp [make_fn, h1], ?_⟩
  intro l is_mut ex sq hmem hout res
  refine gen_fns_not_ok l is_mut ex sq hmem (fun g' hg' => ?_) res
  rw [make_fn, hout, h1] at hg'
  exact Except.noConfusion hg'

/-- Closed instance of the malformed-wrapper claim: the bare name Option
with no angle-bracket arguments is a recognized wrapper with a missing
argument list, and classification aborts with SyntaxError. -/
theorem C8_malformed_wrapper_witness :
    ReturnType.ofSyn (SynReturnType.Typed
        (Ty.path [PathSegment.mk "Option" PathArguments.none]))
      = Except.error GenError.syntaxError
    ∧ make_fn ⟨"f", "", [], SynReturnType.Typed
        (Ty.path [PathSegment.mk "Option" PathArguments.none])⟩ false "&self.pool"
      = Except.error GenError.syntaxError :=
  ⟨(C8_malformed_wrapper "Option" PathArguments.none (by decide) rfl).1,
   (C8_malformed_wrapper "Option" PathArguments.none (by decide) rfl).2.1
     "f" "" [] false "&self.pool"⟩

/-- The bind loop aborts with UnsupportedPattern when some argument pattern
is not a plain identifier. -/
theorem bind_stmts_bad (args : List (Pat × Ty)) (a : Pat × Ty)
    (ha : a ∈ args) (hpat : a.1.isIdent = false) :
    bind_stmts args = Except.error GenError.unsupportedPattern := by
  induction args with
  | nil => simp at ha
  | cons x rest ih =>
    rcases List.mem_cons.mp ha with rfl | ha2
    · cases hx : a.1 with
      | ident s => rw [hx] at hpat; simp [Pat.isIdent] at hpat
      | wild => simp [bind_stmts, hx]
      | tuplePat ps => simp [bind_stmts, hx]
    · cases hx : x.1 with
      | ident s => simp [bind_stmts, hx, ih ha2, Except.map]
      | wild => simp [bind_stmts, hx]
      | tuplePat ps => simp [bind_stmts, hx]

/-- C9: a declaration containing a parameter whose binding pattern is not a
plain identifier never generates a method; when its return type itself
classifies successfully the failure is exactly UnsupportedPattern; and any
generation pass whose list contains the declaration yields no output at
all. -/
theorem C9_bad_pattern (sq : SqlFn) (is_mut : Bool) (ex : String)
    (a : Pat × Ty) (ha : a ∈ sq.args) (hpat : a.1.isIdent = false) :
    (∀ f, make_fn sq is_mut ex ≠ Except.ok f)
    ∧ (∀ shape, ReturnType.ofSyn sq.output = Except.ok shape →
        make_fn sq is_mut ex = Except.error GenError.unsupportedPattern)
    ∧ (∀ l : List SqlFn, sq ∈ l → ∀ res, gen_fns l is_mut ex ≠ Except.ok res) := by
  have hbind := bind_stmts_bad sq.args a ha hpat
  have h1 : ∀ f, make_fn sq is_mut ex ≠ Except.ok f := by
    intro f hf
    cases hc : ReturnType.ofSyn sq.output with
    | error e => rw [make_fn, hc] at hf; exact Except.noConfusion hf
    | ok shape => rw [make_fn, hc, hbind] at hf; exact Except.noConfusion hf
  refine ⟨h1, fun shape hc => by rw [make_fn, hc, hbind], ?_⟩
  intro l hmem res
  exact gen_fns_not_ok l is_mut ex sq hmem h1 res

/-- Closed instance of the unsupported-pattern claim: a declaration whose
single parameter is bound by a wildcard pattern fails with
UnsupportedPattern. -/
theorem C9_bad_pattern_witness :
    (Pat.wild, Ty.tuple ([] : List Ty))
      ∈ ([(Pat.wild, Ty.tuple ([] : List Ty))] : List (Pat × Ty))
    ∧ (Pat.wild, Ty.tuple ([] : List Ty)).1.isIdent = false
    ∧ make_fn ⟨"f", "", [(Pat.wild, Ty.tuple [])], SynReturnType.Default⟩
        false "&self.pool"
      = Except.error GenError.unsupportedPattern :=
  ⟨List.mem_cons_self _ _, rfl,
   (C9_bad_pattern ⟨"f", "", [(Pat.wild, Ty.tuple [])], SynReturnType.Default⟩
     false "&self.pool" (Pat.wild, Ty.tuple []) (List.mem_cons_self _ _) rfl).2.1
     ReturnType.Default rfl⟩

end SqlxHelper
